import Mathlib

/-!
Verification development for a payment-operations monitoring agent.

The repository aggregates a rolling 60-second window of transaction
events into a summary snapshot (`data_stream/simulator.py`), runs a
deterministic rule-based diagnostic engine over it (`brain/agent.py`),
gates the proposed action behind confidence/volume guardrails
(`guardrails/safety.py`) and dispatches at most one tool action per
cycle (`app.py` / `main.py`), recording a lesson for each outcome
(`memory/long_term.py`).

Python floats are modelled by exact rationals (the rule constants are
two-decimal values and the comparisons the rules make are exact at
those values); Python dicts are modelled by association lists in
insertion order (a Python dict never holds a duplicate key); strings
whose only role is display (evidence / risk text) are built from the
same literal fragments as the source, rendering interpolated numbers
with `toString` in place of Python format specifiers.
-/

namespace PayOps

/-- A transaction event as produced by `generate_transaction` in
`data_stream/simulator.py`: bank, issuer, method, status code,
latency in milliseconds and a timestamp. -/
structure Event where
  bank : String
  issuer : String
  method : String
  status : String
  latency_ms : ℚ
  ts : ℚ
  deriving DecidableEq, Repr

/-- Aggregated snapshot, the dict returned by
`aggregate_last_60_seconds` / `_empty_aggregate`. -/
structure Aggregated where
  window_seconds : ℕ
  total_count : ℕ
  success_count : ℕ
  failure_count : ℕ
  success_rate : ℚ
  error_code_distribution : List (String × ℕ)
  affected_banks : List String
  affected_issuers : List String
  affected_methods : List String
  failures_by_bank : List (String × ℕ)
  failures_by_issuer : List (String × ℕ)
  failures_by_method : List (String × ℕ)
  average_latency_ms : ℚ
  sample_size : ℕ
  deriving DecidableEq, Repr

/-- The strict-format decision dict built by `_format_output` in
`brain/agent.py`. -/
structure DiagnosisResult where
  diagnosis : String
  evidence : String
  proposed_action : String
  risk_assessment : String
  confidence_score : ℚ
  recommend_human_approval : Bool
  deriving DecidableEq, Repr

/-- A lesson record as persisted by `store_lesson` in
`memory/long_term.py` (the wall-clock timestamp and the optional
free-form metadata dict are elided: no claim observes them). -/
structure Lesson where
  diagnosis : String
  action : String
  outcome : String
  deriving DecidableEq, Repr

/-- Python `d.get(k, 0)` on a dict modelled as an association list:
value of the first entry with the given key, 0 when absent. -/
def lookupD (d : List (String × ℕ)) (k : String) : ℕ :=
  ((d.find? (fun p => p.1 == k)).map Prod.snd).getD 0

/-- Python `max(d, key=d.get)` on a non-empty dict: the first key
attaining the maximal value, `none` on an empty dict. -/
def argmaxFirst (d : List (String × ℕ)) : Option String :=
  (d.foldl
    (fun acc p =>
      match acc with
      | none => some p
      | some q => if q.2 < p.2 then some p else some q)
    none).map Prod.fst

/-- Python `round(x, 2)` on the rational model (the source only ever
rounds values that are already exact two-decimal constants, where
every rounding convention is the identity). -/
def round2 (q : ℚ) : ℚ := (⌊q * 100 + 1 / 2⌋ : ℤ) / 100

/-- The helper `_format_output` in `brain/agent.py`: packages the five
fields and derives `recommend_human_approval` by comparing the raw
confidence against `CONFIDENCE_AUTONOMOUS = 0.8`. -/
def formatOutput (diagnosis evidence proposed_action risk_assessment : String)
    (confidence_score : ℚ) : DiagnosisResult :=
  { diagnosis := diagnosis
    evidence := evidence
    proposed_action := proposed_action
    risk_assessment := risk_assessment
    confidence_score := round2 confidence_score
    recommend_human_approval := decide (confidence_score < 8 / 10) }

/-- Share of the failures carried by the dominant key of a failure
dict: `by_bank.get(top_bank, 0) / failure if top_bank else 0` in
`brain/agent.py` (also used for the issuer dict, whose result the
source never reads). -/
def pct_of (d : List (String × ℕ)) (failure : ℕ) : ℚ :=
  match argmaxFirst d with
  | some b => (lookupD d b : ℚ) / failure
  | none => 0

/-- The rule engine `diagnose_and_decide` in `brain/agent.py`.
The `historical` argument is accepted exactly as in the source, whose
body never reads it. Rules are evaluated top to bottom, first match
wins; each numeric threshold is the source constant. -/
def diagnose_and_decide (aggregated : Aggregated) (historical : List Lesson) :
    DiagnosisResult :=
  let total := aggregated.total_count
  let failure := aggregated.failure_count
  let success_rate := aggregated.success_rate
  let error_dist := aggregated.error_code_distribution
  let failures_by_bank := aggregated.failures_by_bank
  let failures_by_issuer := aggregated.failures_by_issuer
  let avg_latency := aggregated.average_latency_ms
  -- Defaults used by the final fall-through branch (and, for the
  -- diagnosis label, by the insufficient-sample branch).
  let diagnosis := "Normal variance (no significant anomaly)"
  let evidence := "Success rate " ++ toString success_rate ++ ", " ++
    toString failure ++ " failures in " ++ toString total ++
    " txns; within normal range."
  let proposed_action := "Take no action"
  let risk_assessment := "No change; no risk."
  let confidence_score : ℚ := 85 / 100
  if total < 10 then
    formatOutput diagnosis
      "Insufficient sample size; no reliable diagnosis."
      "Take no action" "Low risk; no intervention." (4 / 10)
  else
    let failure_rate : ℚ := if total ≠ 0 then (failure : ℚ) / total else 0
    let user_declined := lookupD error_dist "USER_DECLINED"
    let bank_timeout := lookupD error_dist "BANK_TIMEOUT"
    let issuer_down := lookupD error_dist "ISSUER_DOWN"
    let network_error := lookupD error_dist "NETWORK_ERROR"
    if 0 < failure ∧ (1 : ℚ) / 2 ≤ (user_declined : ℚ) / failure then
      formatOutput "User-related"
        ("USER_DECLINED accounts for " ++ toString user_declined ++ "/" ++
          toString failure ++
          " failures; pattern suggests user/card issues rather than infra.")
        "Take no action"
        "Automated intervention unlikely to help; could increase friction."
        (82 / 100)
    else
      let top_bank := argmaxFirst failures_by_bank
      let pct_bank : ℚ := pct_of failures_by_bank failure
      let bankEvidence :=
        "Failures concentrated: bank " ++ toString top_bank ++ " (" ++
          toString pct_bank ++
          " of failures), ISSUER_DOWN=" ++ toString issuer_down ++
          ". Suggests issuer or bank-side degradation."
      if 3 ≤ failure ∧
          ((6 : ℚ) / 10 ≤ pct_bank ∨ (failure : ℚ) * (4 / 10) ≤ (issuer_down : ℚ)) then
        if (7 : ℚ) / 10 ≤ pct_bank ∧ 2 ≤ issuer_down then
          formatOutput "Bank/issuer degradation" bankEvidence
            "Reroute traffic"
            "Suppressing one path reduces exposure; low-medium risk if rollback is available."
            (82 / 100)
        else
          formatOutput "Bank/issuer degradation" bankEvidence
            "Suppress failing path"
            "Suppressing one path reduces exposure; low-medium risk if rollback is available."
            (78 / 100)
      else if 3 ≤ failure ∧
          max (2 : ℚ) ((failure : ℚ) * (4 / 10)) ≤ (bank_timeout : ℚ) then
        formatOutput "Bank/issuer degradation"
          ("BANK_TIMEOUT=" ++ toString bank_timeout ++ " of " ++
            toString failure ++
            " failures; indicates bank connectivity or timeout issues.")
          "Adjust retry policy"
          "Retry policy change is reversible; medium risk if backoff is not too aggressive."
          (75 / 100)
      else if max (2 : ℚ) ((failure : ℚ) * (35 / 100)) ≤ (network_error : ℚ) ∨
          ((1800 : ℚ) ≤ avg_latency ∧ (15 : ℚ) / 100 ≤ failure_rate) then
        formatOutput "Network or system failure"
          ("NETWORK_ERROR=" ++ toString network_error ++ ", avg latency=" ++
            toString avg_latency ++ "ms, failure rate=" ++
            toString failure_rate ++ ".")
          "Alert human operators"
          "Network/system issues need investigation; autonomous rerouting could mask root cause."
          (72 / 100)
      else if (15 : ℚ) / 100 ≤ failure_rate ∧ (1500 : ℚ) < avg_latency ∧
          ¬ ((1 : ℚ) / 2 ≤ (user_declined : ℚ) / (max failure 1 : ℕ)) then
        formatOutput "Retry or routing misconfiguration"
          ("Elevated failure rate (" ++ toString failure_rate ++
            ") with high latency (" ++ toString avg_latency ++
            "ms); may indicate bad routing or retry storms.")
          "Alert human operators"
          "Misconfiguration changes are sensitive; recommend human review before changing retry or routing."
          (68 / 100)
      else if (15 : ℚ) / 100 ≤ failure_rate then
        formatOutput "Possible bank/issuer or network issue; unclear from data"
          ("Failure rate " ++ toString failure_rate ++
            " above threshold; error mix: " ++ toString error_dist ++ ".")
          "Alert human operators"
          "Uncertain root cause; escalating to avoid wrong intervention."
          (65 / 100)
      else
        formatOutput diagnosis evidence proposed_action risk_assessment
          confidence_score

/-- Prefix test on character lists (Python `str.startswith`, used only
to build the substring test below). -/
def charsHavePre : List Char → List Char → Bool
  | _, [] => true
  | [], _ :: _ => false
  | h :: t, a :: b => h == a && charsHavePre t b

/-- Substring containment on character lists: Python `sub in s`. -/
def charsContain : List Char → List Char → Bool
  | [], needle => needle.isEmpty
  | h :: t, needle => charsHavePre (h :: t) needle || charsContain t needle

/-- Python `sub in s` on strings. -/
def strContains (s sub : String) : Bool := charsContain s.data sub.data

/-- ASCII whitespace test for Python `str.strip` (every keyword and
action label in the repository is ASCII). -/
def isSpaceChar (c : Char) : Bool :=
  c == ' ' || c == '\t' || c == '\n' || c == '\r'

/-- Python `str.strip`: drop leading and trailing whitespace. -/
def stripChars (l : List Char) : List Char :=
  ((l.dropWhile isSpaceChar).reverse.dropWhile isSpaceChar).reverse

/-- Python `str.lower` on the ASCII range (the only range the
repository's action labels use). -/
def lowerChar (c : Char) : Char :=
  if 'A' ≤ c ∧ c ≤ 'Z' then Char.ofNat (c.toNat + 32) else c

/-- Python `s.strip().lower()` as performed by `get_action_key`. -/
def stripLower (s : String) : String :=
  ⟨(stripChars s.data).map lowerChar⟩

/-- The classifier `get_action_key` in `brain/agent.py`: maps the
free-text proposed action to a tool key by case-insensitive keyword
matching in the source's order. -/
def get_action_key (proposed_action : String) : String :=
  let a := stripLower proposed_action
  if strContains a "reroute" || strContains a "traffic" then "reroute"
  else if strContains a "retry" then "retry"
  else if strContains a "suppress" || strContains a "failing path" then "suppress"
  else if strContains a "alert" || strContains a "human" || strContains a "operators" then "alert"
  else "no_action"

/-- Age test used by every window in the repository: an event is kept
when `now - e["ts"] <= 60`. The wall clock read `time.time()` in the
source becomes the explicit `now` argument. -/
def inAge (now : ℚ) (e : Event) : Bool := decide (now - e.ts ≤ 60)

/-- One increment of a `defaultdict(int)` tally, preserving insertion
order of first occurrences. -/
def bump : List (String × ℕ) → String → List (String × ℕ)
  | [], k => [(k, 1)]
  | (a, n) :: t, k => if a == k then (a, n + 1) :: t else (a, n) :: bump t k

/-- Tally a list of keys in first-occurrence order (the iteration
order a Python `defaultdict(int)` ends up with). -/
def tally (keys : List String) : List (String × ℕ) := keys.foldl bump []

/-- The dict returned by `_empty_aggregate` in
`data_stream/simulator.py`. -/
def emptyAggregate : Aggregated :=
  { window_seconds := 60
    total_count := 0
    success_count := 0
    failure_count := 0
    success_rate := 0
    error_code_distribution := []
    affected_banks := []
    affected_issuers := []
    affected_methods := []
    failures_by_bank := []
    failures_by_issuer := []
    failures_by_method := []
    average_latency_ms := 0
    sample_size := 0 }

/-- The aggregator `aggregate_last_60_seconds` in
`data_stream/simulator.py`, with the internal `time.time()` made the
explicit `now` argument. The `list({...})` set comprehensions for the
affected-dimension lists become `dedup` (the claims never inspect an
order on those lists). -/
def aggregate_last_60_seconds (now : ℚ) (events : List Event) : Aggregated :=
  let window := events.filter (inAge now)
  if window.isEmpty then emptyAggregate
  else
    let success := window.filter (fun e => e.status == "SUCCESS")
    let failures := window.filter (fun e => e.status != "SUCCESS")
    let latencySum := (window.map Event.latency_ms).sum
    { window_seconds := 60
      total_count := window.length
      success_count := success.length
      failure_count := failures.length
      success_rate :=
        if ¬ window.isEmpty then (success.length : ℚ) / window.length else 0
      error_code_distribution := tally (window.map Event.status)
      affected_banks := (window.map Event.bank).dedup
      affected_issuers := (window.map Event.issuer).dedup
      affected_methods := (window.map Event.method).dedup
      failures_by_bank := tally (failures.map Event.bank)
      failures_by_issuer := tally (failures.map Event.issuer)
      failures_by_method := tally (failures.map Event.method)
      average_latency_ms :=
        round2 (if window.length ≠ 0 then latencySum / window.length else 0)
      sample_size := window.length }

/-- Modelled from the spec: `config.py` is absent from `src/` (only
its importers are present), so the guardrail threshold
`CONFIDENCE_THRESHOLD` takes the spec's value 0.8 (also hard-coded in
`app.py`). -/
def CONFIDENCE_THRESHOLD : ℚ := 8 / 10

/-- The predicate `is_safe` in `guardrails/safety.py`. Modelled from
the spec for the missing `config.py`: `MAX_AUTONOMOUS_VOLUME` has no
stated value, so it is passed as the explicit `maxVol` argument. -/
def is_safe (confidence volume maxVol : ℚ) : Bool :=
  if confidence < CONFIDENCE_THRESHOLD then false
  else if maxVol < volume then false
  else true

/-- The predicate `should_escalate` in `guardrails/safety.py`. -/
def should_escalate (r : DiagnosisResult) : Bool :=
  r.recommend_human_approval || decide (r.confidence_score < CONFIDENCE_THRESHOLD)

/-- Observable outcome of one dashboard cycle (`run_agent_cycle` in
`app.py`): the `action_taken` session value, whether `alert_ops` was
called, the tool invoked (if any), and the recorded lesson. -/
structure AppCycleOutcome where
  actionTaken : String
  opsNotified : Bool
  toolCall : Option String
  lesson : Lesson
  deriving DecidableEq, Repr

/-- The decision cycle `run_agent_cycle` in `app.py`, as a function of
the diagnosis result it computed, the current event-buffer length and
the (spec-modelled) autonomous-volume ceiling. -/
def run_agent_cycle (result : DiagnosisResult) (nEvents : ℕ) (maxVol : ℚ) :
    AppCycleOutcome :=
  let action_key := get_action_key result.proposed_action
  let confidence := result.confidence_score
  if should_escalate result then
    { actionTaken := "escalated"
      opsNotified := true
      toolCall := none
      lesson :=
        { diagnosis := result.diagnosis, action := "ALERT_ONLY", outcome := "ESCALATED" } }
  else if action_key == "reroute" && is_safe confidence (nEvents : ℚ) maxVol then
    { actionTaken := "reroute"
      opsNotified := false
      toolCall := some "reroute_traffic"
      lesson :=
        { diagnosis := result.diagnosis, action := result.proposed_action,
          outcome := "EXECUTED" } }
  else if action_key != "no_action" then
    { actionTaken := "escalated"
      opsNotified := true
      toolCall := none
      lesson :=
        { diagnosis := result.diagnosis, action := result.proposed_action,
          outcome := "SKIPPED_SAFETY" } }
  else
    { actionTaken := "no_action"
      opsNotified := false
      toolCall := none
      lesson :=
        { diagnosis := result.diagnosis, action := "Take no action",
          outcome := "MONITORED" } }

/-- The dispatcher `run_action` in `main.py`: the external tool each
action key invokes; `no_action` invokes none. -/
def run_action (action_key : String) : Option String :=
  if action_key == "reroute" then some "reroute_traffic"
  else if action_key == "suppress" then some "suppress_failing_path"
  else if action_key == "retry" then some "adjust_retry_policy"
  else if action_key == "alert" then some "alert_ops"
  else none

/-- Observable outcome of one loop iteration of `main` in `main.py`:
whether `alert_ops` was called, the key handed to `run_action` (if the
EXECUTED branch ran), and the recorded lesson. -/
structure MainCycleOutcome where
  opsNotified : Bool
  dispatched : Option String
  lesson : Lesson
  deriving DecidableEq, Repr

/-- The guardrail/dispatch tail of the `while` loop in `main.py`, as a
function of the diagnosis result, the running total volume and the
(spec-modelled) autonomous-volume ceiling. -/
def main_cycle (result : DiagnosisResult) (totalVolume maxVol : ℚ) :
    MainCycleOutcome :=
  let action_key := get_action_key result.proposed_action
  if should_escalate result then
    { opsNotified := true
      dispatched := none
      lesson :=
        { diagnosis := result.diagnosis, action := "ALERT_ONLY", outcome := "ESCALATED" } }
  else if action_key != "no_action" &&
      is_safe result.confidence_score totalVolume maxVol then
    { opsNotified := false
      dispatched := some action_key
      lesson :=
        { diagnosis := result.diagnosis, action := result.proposed_action,
          outcome := "EXECUTED" } }
  else if action_key != "no_action" then
    { opsNotified := true
      dispatched := none
      lesson :=
        { diagnosis := result.diagnosis, action := result.proposed_action,
          outcome := "SKIPPED_SAFETY" } }
  else
    { opsNotified := false
      dispatched := none
      lesson :=
        { diagnosis := result.diagnosis, action := "Take no action",
          outcome := "MONITORED" } }

/-- State of the lesson-store file as the `LongTermMemory` constructor
in `memory/long_term.py` sees it: `some data` when the file opens and
parses, `none` when any exception occurs (missing, unreadable,
malformed). -/
def memoryInitData (file : Option (List Lesson)) : List Lesson := file.getD []

/-- Python `data[-n:]` as used by `LongTermMemory.retrieve`: the last
`n` records — and, faithfully to Python slicing, the whole list when
`n = 0`. -/
def lastSlice (n : ℕ) (data : List Lesson) : List Lesson :=
  if n = 0 then data else data.drop (data.length - n)

/-- The reader `get_historical_outcomes` in `memory/long_term.py`:
construct the store from the file state and retrieve the last `n`
lessons. Total: a failed read degrades to the empty history. -/
def get_historical_outcomes (file : Option (List Lesson)) (n : ℕ) : List Lesson :=
  lastSlice n (memoryInitData file)

/-- `LongTermMemory.save_lesson` in `memory/long_term.py`: appends and
rewrites the file with no exception handling, so an unwritable store
(`writable = false`) propagates the error. -/
def save_lesson (writable : Bool) (data : List Lesson) (lesson : Lesson) :
    Except String (List Lesson) :=
  if writable then Except.ok (data ++ [lesson])
  else Except.error "write failed"

/-- The writer `store_lesson` in `memory/long_term.py`, as a function
of the store's file state and writability. -/
def store_lesson (file : Option (List Lesson)) (writable : Bool)
    (diagnosis action outcome : String) : Except String (List Lesson) :=
  save_lesson writable (memoryInitData file)
    { diagnosis := diagnosis, action := action, outcome := outcome }

/-- One `WINDOW.append(event)` of `observe` in `observe/observer.py`:
`WINDOW` is a `deque(maxlen=WINDOW_SIZE)`, so appending past capacity
drops the oldest entries. `WINDOW_SIZE` lives in the absent
`config.py` and is passed as the explicit `w` argument. -/
def observeStep (w : ℕ) (buf : List Event) (e : Event) : List Event :=
  let b := buf ++ [e]
  if w < b.length then b.drop (b.length - w) else b

/-- The window `observe` produces after adding a whole sequence of
events to an initially empty `WINDOW`. -/
def observeAll (w : ℕ) (events : List Event) : List Event :=
  events.foldl (observeStep w) []

/-- The buffer maintenance of `simulate_traffic` in `app.py`: append
the new events, then keep only those with `now - ts <= 60`. -/
def simulate_traffic (now : ℚ) (buf newEvents : List Event) : List Event :=
  (buf ++ newEvents).filter (inAge now)

/-- Action classifier written from the specification's words ("text
containing reroute or traffic yields reroute; otherwise retry yields
retry; otherwise suppress or failing path yields suppress; otherwise
alert, human or operators yields alert; any other text yields
no_action", matched case-insensitively), to be compared with the
source classifier `get_action_key`. -/
def claimClassify (text : String) : String :=
  let a := stripLower text
  if strContains a "reroute" || strContains a "traffic" then "reroute"
  else if strContains a "retry" then "retry"
  else if strContains a "suppress" || strContains a "failing path" then "suppress"
  else if strContains a "alert" || strContains a "human" || strContains a "operators" then "alert"
  else "no_action"

/-- A snapshot with `total_count = 8` and otherwise non-trivial fields
(concentrated SBI failures, high latency): the insufficient-sample
rule must pre-empt everything. -/
def sampleTotal8 : Aggregated :=
  { window_seconds := 60, total_count := 8, success_count := 2, failure_count := 6,
    success_rate := 1 / 4, error_code_distribution := [("ISSUER_DOWN", 6)],
    affected_banks := ["SBI"], affected_issuers := ["VISA"], affected_methods := ["CARD"],
    failures_by_bank := [("SBI", 6)], failures_by_issuer := [("VISA", 6)],
    failures_by_method := [("CARD", 6)], average_latency_ms := 2000, sample_size := 8 }

/-- The specification's reroute scenario: total=50, failures=8,
failures_by_bank SBI:6 (share 0.75), ISSUER_DOWN=4. -/
def sampleReroute50 : Aggregated :=
  { window_seconds := 60, total_count := 50, success_count := 42, failure_count := 8,
    success_rate := 42 / 50, error_code_distribution := [("ISSUER_DOWN", 4)],
    affected_banks := ["SBI"], affected_issuers := ["VISA"], affected_methods := ["CARD"],
    failures_by_bank := [("SBI", 6)], failures_by_issuer := [("VISA", 6)],
    failures_by_method := [("CARD", 6)], average_latency_ms := 500, sample_size := 50 }

/-- A snapshot triggering the network/system-failure rule (3 network
errors among 4 failures): proposed action "Alert human operators",
confidence 0.72. -/
def sampleNetwork20 : Aggregated :=
  { window_seconds := 60, total_count := 20, success_count := 16, failure_count := 4,
    success_rate := 16 / 20, error_code_distribution := [("NETWORK_ERROR", 3)],
    affected_banks := [], affected_issuers := [], affected_methods := [],
    failures_by_bank := [], failures_by_issuer := [],
    failures_by_method := [], average_latency_ms := 500, sample_size := 20 }

/-- A fresh (timestamp 0) successful transaction event. -/
def sampleEventA : Event :=
  { bank := "HDFC", issuer := "VISA", method := "CARD", status := "SUCCESS",
    latency_ms := 100, ts := 0 }

/-- A second fresh event, distinguishable from `sampleEventA`. -/
def sampleEventB : Event :=
  { bank := "SBI", issuer := "RUPAY", method := "UPI", status := "ISSUER_DOWN",
    latency_ms := 900, ts := 0 }

/-- C6: the history argument never influences the diagnosis — for
every snapshot and any two history sequences, `diagnose_and_decide`
returns the same result in every field (the source body never reads
its `historical` parameter). -/
theorem C6_history_inert (agg : Aggregated) (h1 h2 : List Lesson) :
    diagnose_and_decide agg h1 = diagnose_and_decide agg h2 := rfl

/-- C9: reading an unreadable lesson store degrades to the empty
history, but writing to an unwritable store propagates the error out
of `store_lesson` (the source's `save_lesson` has no exception
handling around the file write), contradicting the claim's
best-effort-append half. -/
theorem C9_persistence_failure :
    get_historical_outcomes none 5 = [] ∧
      store_lesson none false "Bank/issuer degradation" "ALERT_ONLY" "ESCALATED"
        = Except.error "write failed" := by
  constructor <;> rfl

/-- C2: any diagnosis result with confidence score below 0.8 makes
`should_escalate` true and drives `run_agent_cycle` to the escalated
outcome — operators notified, no tool call, lesson recorded with
action ALERT_ONLY and outcome ESCALATED — whatever the proposed
action, buffer size or volume ceiling. -/
theorem C2_low_confidence_escalates (r : DiagnosisResult) (nEvents : ℕ)
    (maxVol : ℚ) (h : r.confidence_score < 8 / 10) :
    should_escalate r = true ∧
      run_agent_cycle r nEvents maxVol =
        { actionTaken := "escalated", opsNotified := true, toolCall := none,
          lesson := { diagnosis := r.diagnosis, action := "ALERT_ONLY",
                      outcome := "ESCALATED" } } := by
  have hesc : should_escalate r = true := by
    simp [should_escalate, CONFIDENCE_THRESHOLD, h]
  refine ⟨hesc, ?_⟩
  simp [run_agent_cycle, hesc]

/-- Witness for C2 at a concrete result with confidence 0.5 and a
proposed action ("Reroute traffic") that would otherwise execute. -/
theorem C2_low_confidence_escalates_witness :
    should_escalate
        { diagnosis := "Bank/issuer degradation", evidence := "e",
          proposed_action := "Reroute traffic", risk_assessment := "r",
          confidence_score := 1 / 2, recommend_human_approval := true } = true ∧
      run_agent_cycle
          { diagnosis := "Bank/issuer degradation", evidence := "e",
            proposed_action := "Reroute traffic", risk_assessment := "r",
            confidence_score := 1 / 2, recommend_human_approval := true } 3 1000 =
        { actionTaken := "escalated", opsNotified := true, toolCall := none,
          lesson := { diagnosis := "Bank/issuer degradation",
                      action := "ALERT_ONLY", outcome := "ESCALATED" } } :=
  C2_low_confidence_escalates _ 3 1000 (by norm_num)

/-- C1 counterexample: on the concrete snapshot with `total_count = 8`
the returned diagnosis label is the default "Normal variance (no
significant anomaly)" — not "insufficient sample" as the claim states
(only the evidence string mentions the sample size). -/
theorem C1_counterexample :
    sampleTotal8.total_count < 10 ∧
      (diagnose_and_decide sampleTotal8 []).diagnosis
        = "Normal variance (no significant anomaly)" ∧
      (diagnose_and_decide sampleTotal8 []).diagnosis ≠ "insufficient sample" := by
  refine ⟨by decide, rfl, by decide⟩

/-- C1 amended: whenever `total_count < 10`, `diagnose_and_decide`
returns — before every other rule and regardless of every other
snapshot field — the fixed result with the default diagnosis label
"Normal variance (no significant anomaly)", evidence "Insufficient
sample size; no reliable diagnosis.", proposed action "Take no
action", confidence 0.4, and the human-approval flag set. -/
theorem C1_insufficient_sample (agg : Aggregated) (hist : List Lesson)
    (h : agg.total_count < 10) :
    diagnose_and_decide agg hist =
      { diagnosis := "Normal variance (no significant anomaly)",
        evidence := "Insufficient sample size; no reliable diagnosis.",
        proposed_action := "Take no action",
        risk_assessment := "Low risk; no intervention.",
        confidence_score := 2 / 5, recommend_human_approval := true } := by
  simp only [diagnose_and_decide]
  rw [if_pos h]
  simp [formatOutput, round2]
  norm_num

/-- Witness for C1's amended rule at the concrete `total_count = 8`
snapshot. -/
theorem C1_insufficient_sample_witness :
    sampleTotal8.total_count < 10 ∧
      diagnose_and_decide sampleTotal8 [] =
        { diagnosis := "Normal variance (no significant anomaly)",
          evidence := "Insufficient sample size; no reliable diagnosis.",
          proposed_action := "Take no action",
          risk_assessment := "Low risk; no intervention.",
          confidence_score := 2 / 5, recommend_human_approval := true } :=
  ⟨by decide, C1_insufficient_sample sampleTotal8 [] (by decide)⟩

/-- Splitting a window by the success test: the events whose status is
the success code and those whose status is not partition the window. -/
theorem length_filter_success_split (l : List Event) :
    (l.filter (fun e => e.status == "SUCCESS")).length +
        (l.filter (fun e => e.status != "SUCCESS")).length = l.length := by
  have h := List.length_eq_length_filter_add (l := l)
    (fun e => e.status == "SUCCESS")
  simpa [bne] using h.symm

/-- C8: the action classifier agrees everywhere with the classifier
written from the specification's words, always lands in the closed
five-key enumeration, and maps the two quoted examples as claimed. -/
theorem C8_classifier :
    (∀ s : String, get_action_key s = claimClassify s) ∧
      (∀ s : String,
        get_action_key s ∈ ["reroute", "retry", "suppress", "alert", "no_action"]) ∧
      get_action_key "Reroute traffic" = "reroute" ∧
      get_action_key "Take no action" = "no_action" := by
  refine ⟨fun s => rfl, fun s => ?_, by decide, by decide⟩
  simp only [get_action_key]
  split_ifs <;> simp

/-- C7: every snapshot the aggregator produces satisfies
`success_count + failure_count = total_count` and
`0 ≤ success_rate ≤ 1`; an event counts as a failure exactly when its
status differs from the success code; and an empty window yields the
zero-valued snapshot rather than an error. -/
theorem C7_snapshot_invariants (now : ℚ) (events : List Event) :
    (aggregate_last_60_seconds now events).success_count +
        (aggregate_last_60_seconds now events).failure_count =
      (aggregate_last_60_seconds now events).total_count ∧
      0 ≤ (aggregate_last_60_seconds now events).success_rate ∧
      (aggregate_last_60_seconds now events).success_rate ≤ 1 ∧
      (aggregate_last_60_seconds now events).failure_count =
        ((events.filter (inAge now)).filter
          (fun e => e.status != "SUCCESS")).length ∧
      ((events.filter (inAge now)).isEmpty = true →
        aggregate_last_60_seconds now events = emptyAggregate) := by
  by_cases hw : (events.filter (inAge now)).isEmpty = true
  · have hnil : events.filter (inAge now) = [] := List.isEmpty_iff.mp hw
    refine ⟨?_, ?_, ?_, ?_, fun _ => ?_⟩ <;>
      simp [aggregate_last_60_seconds, hnil, emptyAggregate]
  · have hne : events.filter (inAge now) ≠ [] := by
      intro h
      exact hw (by simp [h])
    have hlen : 0 < ((events.filter (inAge now)).length : ℚ) := by
      exact_mod_cast List.length_pos.mpr hne
    have hle : ((events.filter (inAge now)).filter
        (fun e => e.status == "SUCCESS")).length ≤
        (events.filter (inAge now)).length := List.length_filter_le _ _
    refine ⟨?_, ?_, ?_, ?_, fun h => absurd h hw⟩
    · simp [aggregate_last_60_seconds, hw, -List.filter_filter]
      exact length_filter_success_split _
    · simp [aggregate_last_60_seconds, hw, -List.filter_filter]
      positivity
    · simp [aggregate_last_60_seconds, hw, -List.filter_filter]
      rw [div_le_one hlen]
      exact_mod_cast hle
    · simp [aggregate_last_60_seconds, hw, -List.filter_filter]

/-- Witness for C7 at the empty event sequence: the empty-window
hypothesis is discharged concretely. -/
theorem C7_snapshot_invariants_witness :
    aggregate_last_60_seconds 0 [] = emptyAggregate ∧
      (aggregate_last_60_seconds 0 []).success_count +
          (aggregate_last_60_seconds 0 []).failure_count =
        (aggregate_last_60_seconds 0 []).total_count :=
  ⟨(C7_snapshot_invariants 0 []).2.2.2.2 (by decide),
    (C7_snapshot_invariants 0 []).1⟩

/-- C5 counterexample: the aggregator reads the wall clock, so its
result depends on more than the event sequence — the same one-event
sequence aggregated at time 30 and at time 100 yields different
snapshots (the event has aged out of the second window). -/
theorem C5_counterexample :
    aggregate_last_60_seconds 30 [sampleEventA]
      ≠ aggregate_last_60_seconds 100 [sampleEventA] := by
  intro h
  have h2 := congrArg Aggregated.total_count h
  norm_num [aggregate_last_60_seconds, inAge, sampleEventA, List.filter,
    emptyAggregate] at h2

/-- C5 amended: for a fixed evaluation time `now`, aggregation is a
pure function of the sequence and depends only on its in-age part —
aggregating the already-filtered window returns the same snapshot. -/
theorem C5_aggregate_window_determined (now : ℚ) (events : List Event) :
    aggregate_last_60_seconds now (events.filter (inAge now))
      = aggregate_last_60_seconds now events := by
  simp [aggregate_last_60_seconds, List.filter_filter]

/-- Folding `observe` over any event sequence from a buffer no longer
than the deque bound leaves exactly the last `w` entries of the
concatenation: the deque evicts by count alone. -/
theorem observe_fold_drop (w : ℕ) (events : List Event) :
    ∀ buf : List Event, buf.length ≤ w →
      events.foldl (observeStep w) buf =
        (buf ++ events).drop ((buf ++ events).length - w) := by
  induction events with
  | nil =>
    intro buf hb
    simp [Nat.sub_eq_zero_of_le hb]
  | cons e es ih =>
    intro buf hb
    show es.foldl (observeStep w) (observeStep w buf e) = _
    by_cases h : w < (buf ++ [e]).length
    · have hbl : buf.length = w := by
        simp at h
        omega
      have hstep : observeStep w buf e = (buf ++ [e]).drop 1 := by
        simp only [observeStep, if_pos h]
        congr 1
        simp [hbl]
      have hlen1 : ((buf ++ [e]).drop 1).length ≤ w := by
        simp [hbl]
      rw [hstep, ih _ hlen1]
      rw [← List.drop_append_of_le_length (by simp)]
      rw [List.drop_drop]
      have harr : (buf ++ [e]) ++ es = buf ++ e :: es := by simp
      rw [harr]
      congr 1
      simp [hbl]
      omega
    · have hle : (buf ++ [e]).length ≤ w := Nat.le_of_not_lt h
      have hstep : observeStep w buf e = buf ++ [e] := by
        simp only [observeStep, if_neg h]
      rw [hstep, ih _ hle]
      have harr : (buf ++ [e]) ++ es = buf ++ e :: es := by simp
      rw [harr]

/-- C4 counterexample: with deque capacity 1, adding two fresh
(in-age) events through `observe` evicts the first even though it is
still within the 60-second age bound, so the produced window is not
the set of in-age added events. -/
theorem C4_counterexample :
    inAge 0 sampleEventA = true ∧
      sampleEventA ∈ [sampleEventA, sampleEventB] ∧
      sampleEventA ∉ observeAll 1 [sampleEventA, sampleEventB] ∧
      observeAll 1 [sampleEventA, sampleEventB]
        ≠ ([sampleEventA, sampleEventB]).filter (inAge 0) := by
  have hA : inAge 0 sampleEventA = true := by norm_num [inAge, sampleEventA]
  have hB : inAge 0 sampleEventB = true := by norm_num [inAge, sampleEventB]
  have hf : ([sampleEventA, sampleEventB]).filter (inAge 0)
      = [sampleEventA, sampleEventB] := by
    simp [List.filter, hA, hB]
  refine ⟨hA, by simp, by decide, ?_⟩
  rw [hf]
  decide

/-- C4 amended: the dashboard buffer of `simulate_traffic` retains
exactly the added events within 60 seconds of `now`, with capacity
unbounded; the `observe` window, by contrast, is a count-bounded deque
that always holds exactly the last `WINDOW_SIZE` added events,
evicting the oldest by count and never by age. -/
theorem C4_window_amended :
    (∀ (now : ℚ) (buf newEvents : List Event) (e : Event),
        e ∈ simulate_traffic now buf newEvents ↔
          e ∈ buf ++ newEvents ∧ now - e.ts ≤ 60) ∧
      ∀ (w : ℕ) (events : List Event),
        observeAll w events = events.drop (events.length - w) := by
  constructor
  · intro now buf newEvents e
    simp [simulate_traffic, List.mem_filter, inAge]
    tauto
  · intro w events
    have h := observe_fold_drop w events [] (by simp)
    simpa using h

/-- Evaluation of the classifier on each literal action label the
diagnostic engine emits. -/
theorem key_take_no_action : get_action_key "Take no action" = "no_action" := by
  decide

/-- Classifier value on the reroute label. -/
theorem key_reroute_traffic : get_action_key "Reroute traffic" = "reroute" := by
  decide

/-- Classifier value on the suppress label. -/
theorem key_suppress : get_action_key "Suppress failing path" = "suppress" := by
  decide

/-- Classifier value on the retry label. -/
theorem key_adjust_retry : get_action_key "Adjust retry policy" = "retry" := by
  decide

/-- Classifier value on the alert label. -/
theorem key_alert : get_action_key "Alert human operators" = "alert" := by
  decide

/-- C3: whenever the sample is large enough (`total_count ≥ 10`),
there are at least 3 failures, USER_DECLINED carries less than half of
them, the dominant bank carries at least 0.7 of the failures and at
least 2 failures are ISSUER_DOWN, the engine diagnoses "Bank/issuer
degradation" with proposed action "Reroute traffic" at confidence
0.82; and the dashboard cycle then reaches the EXECUTED outcome
(reroute tool invoked) whenever the buffered volume is within the
autonomous-volume ceiling. -/
theorem C3_bank_degradation_reroute (agg : Aggregated) (hist : List Lesson)
    (nEvents : ℕ) (maxVol : ℚ)
    (htot : 10 ≤ agg.total_count)
    (hfail : 3 ≤ agg.failure_count)
    (hud : (lookupD agg.error_code_distribution "USER_DECLINED" : ℚ)
        / agg.failure_count < 1 / 2)
    (hpct : 7 / 10 ≤ pct_of agg.failures_by_bank agg.failure_count)
    (hisd : 2 ≤ lookupD agg.error_code_distribution "ISSUER_DOWN")
    (hvol : (nEvents : ℚ) ≤ maxVol) :
    (diagnose_and_decide agg hist).diagnosis = "Bank/issuer degradation" ∧
      (diagnose_and_decide agg hist).proposed_action = "Reroute traffic" ∧
      (diagnose_and_decide agg hist).confidence_score = 82 / 100 ∧
      (run_agent_cycle (diagnose_and_decide agg hist) nEvents maxVol).lesson.outcome
        = "EXECUTED" ∧
      (run_agent_cycle (diagnose_and_decide agg hist) nEvents maxVol).toolCall
        = some "reroute_traffic" := by
  have hr : diagnose_and_decide agg hist =
      formatOutput "Bank/issuer degradation"
        ("Failures concentrated: bank " ++
          toString (argmaxFirst agg.failures_by_bank) ++ " (" ++
          toString (pct_of agg.failures_by_bank agg.failure_count) ++
          " of failures), ISSUER_DOWN=" ++
          toString (lookupD agg.error_code_distribution "ISSUER_DOWN") ++
          ". Suggests issuer or bank-side degradation.")
        "Reroute traffic"
        "Suppressing one path reduces exposure; low-medium risk if rollback is available."
        (82 / 100) := by
    simp only [diagnose_and_decide]
    rw [if_neg (by omega)]
    rw [if_neg ?hnotud]
    case hnotud =>
      rintro ⟨-, h2⟩
      linarith
    rw [if_pos ⟨hfail, Or.inl (by linarith)⟩]
    rw [if_pos ⟨hpct, hisd⟩]
  have hconf : (diagnose_and_decide agg hist).confidence_score = 82 / 100 := by
    rw [hr]
    norm_num [formatOutput, round2]
  have hrec : (diagnose_and_decide agg hist).recommend_human_approval = false := by
    rw [hr]
    norm_num [formatOutput]
  have hesc : should_escalate (diagnose_and_decide agg hist) = false := by
    norm_num [should_escalate, hrec, hconf, CONFIDENCE_THRESHOLD]
  have hact : (diagnose_and_decide agg hist).proposed_action = "Reroute traffic" := by
    rw [hr]
    rfl
  have hkey : get_action_key (diagnose_and_decide agg hist).proposed_action
      = "reroute" := by
    rw [hact]
    exact key_reroute_traffic
  have hsafe : is_safe (diagnose_and_decide agg hist).confidence_score
      (nEvents : ℚ) maxVol = true := by
    rw [hconf, is_safe]
    rw [if_neg (by norm_num [CONFIDENCE_THRESHOLD])]
    rw [if_neg (not_lt.mpr hvol)]
  refine ⟨by rw [hr]; rfl, hact, hconf, ?_, ?_⟩ <;>
    simp [run_agent_cycle, hesc, hkey, hsafe]

/-- Witness for C3 at the specification's scenario: total=50,
failures=8, failures_by_bank SBI:6 (share 0.75), ISSUER_DOWN=4, with
volume 50 under a ceiling of 1000. -/
theorem C3_bank_degradation_reroute_witness :
    (diagnose_and_decide sampleReroute50 []).diagnosis = "Bank/issuer degradation" ∧
      (diagnose_and_decide sampleReroute50 []).proposed_action = "Reroute traffic" ∧
      (diagnose_and_decide sampleReroute50 []).confidence_score = 82 / 100 ∧
      (run_agent_cycle (diagnose_and_decide sampleReroute50 []) 50 1000).lesson.outcome
        = "EXECUTED" ∧
      (run_agent_cycle (diagnose_and_decide sampleReroute50 []) 50 1000).toolCall
        = some "reroute_traffic" :=
  by
  have hud0 : lookupD sampleReroute50.error_code_distribution "USER_DECLINED" = 0 := by
    decide
  have hisd4 : lookupD sampleReroute50.error_code_distribution "ISSUER_DOWN" = 4 := by
    decide
  have htop : argmaxFirst [("SBI", 6)] = some "SBI" := by
    decide
  have hsbi : lookupD [("SBI", 6)] "SBI" = 6 := by
    decide
  have hpct : pct_of sampleReroute50.failures_by_bank sampleReroute50.failure_count
      = 6 / 8 := by
    simp [pct_of, sampleReroute50, htop, hsbi]
  exact C3_bank_degradation_reroute sampleReroute50 [] 50 1000
    (by decide) (by decide)
    (by rw [hud0]; norm_num [sampleReroute50])
    (by rw [hpct]; norm_num)
    (by decide)
    (by norm_num)

/-- A rule branch with sub-threshold confidence always escalates in
the always-running loop and never reaches `run_action`. -/
theorem low_conf_leaf (d e a r : String) (c : ℚ) (hc : c < 8 / 10)
    (hcr : round2 c ≤ 78 / 100) (v maxVol : ℚ) :
    ((formatOutput d e a r c).proposed_action ≠ "Take no action" ∧
        (formatOutput d e a r c).proposed_action ≠ "Reroute traffic" →
      (formatOutput d e a r c).confidence_score ≤ 78 / 100 ∧
        should_escalate (formatOutput d e a r c) = true) ∧
      ((main_cycle (formatOutput d e a r c) v maxVol).dispatched = none ∨
        (main_cycle (formatOutput d e a r c) v maxVol).dispatched
          = some "reroute") := by
  have hesc : should_escalate (formatOutput d e a r c) = true := by
    simp [should_escalate, formatOutput, CONFIDENCE_THRESHOLD, hc]
  constructor
  · intro _
    exact ⟨hcr, hesc⟩
  · left
    simp [main_cycle, hesc]

/-- A rule branch proposing "Take no action" never reaches
`run_action`, whatever its confidence. -/
theorem tna_leaf (d e r : String) (c v maxVol : ℚ) :
    ((formatOutput d e "Take no action" r c).proposed_action ≠ "Take no action" ∧
        (formatOutput d e "Take no action" r c).proposed_action ≠ "Reroute traffic" →
      (formatOutput d e "Take no action" r c).confidence_score ≤ 78 / 100 ∧
        should_escalate (formatOutput d e "Take no action" r c) = true) ∧
      ((main_cycle (formatOutput d e "Take no action" r c) v maxVol).dispatched
          = none ∨
        (main_cycle (formatOutput d e "Take no action" r c) v maxVol).dispatched
          = some "reroute") := by
  have hkey : get_action_key
      (formatOutput d e "Take no action" r c).proposed_action = "no_action" :=
    key_take_no_action
  constructor
  · rintro ⟨ha, -⟩
    exact absurd rfl ha
  · left
    cases hB : should_escalate (formatOutput d e "Take no action" r c)
    · simp [main_cycle, hB, hkey]
    · simp [main_cycle, hB]

/-- The reroute rule branch hands at most the "reroute" key to
`run_action`. -/
theorem rt_leaf (d e r : String) (c v maxVol : ℚ) :
    ((formatOutput d e "Reroute traffic" r c).proposed_action ≠ "Take no action" ∧
        (formatOutput d e "Reroute traffic" r c).proposed_action ≠ "Reroute traffic" →
      (formatOutput d e "Reroute traffic" r c).confidence_score ≤ 78 / 100 ∧
        should_escalate (formatOutput d e "Reroute traffic" r c) = true) ∧
      ((main_cycle (formatOutput d e "Reroute traffic" r c) v maxVol).dispatched
          = none ∨
        (main_cycle (formatOutput d e "Reroute traffic" r c) v maxVol).dispatched
          = some "reroute") := by
  have hkey : get_action_key
      (formatOutput d e "Reroute traffic" r c).proposed_action = "reroute" :=
    key_reroute_traffic
  constructor
  · rintro ⟨-, hb⟩
    exact absurd rfl hb
  · cases hB : should_escalate (formatOutput d e "Reroute traffic" r c)
    · cases hS : is_safe
          (formatOutput d e "Reroute traffic" r c).confidence_score v maxVol
      · left
        simp [main_cycle, hB, hkey, hS]
      · right
        simp [main_cycle, hB, hkey, hS]
    · left
      simp [main_cycle, hB]

set_option maxHeartbeats 2000000 in
/-- C10: every rule branch whose proposed action is neither "Take no
action" nor "Reroute traffic" carries confidence at most 0.78 — below
the 0.8 autonomy bar — and therefore escalates; consequently the
always-running loop hands `run_action` at most the "reroute" key, so
the suppress, retry and alert tool branches are unreachable and
reroute is the only autonomously EXECUTED action. -/
theorem C10_reroute_only_autonomous (agg : Aggregated) (hist : List Lesson)
    (v maxVol : ℚ) :
    ((diagnose_and_decide agg hist).proposed_action ≠ "Take no action" ∧
        (diagnose_and_decide agg hist).proposed_action ≠ "Reroute traffic" →
      (diagnose_and_decide agg hist).confidence_score ≤ 78 / 100 ∧
        should_escalate (diagnose_and_decide agg hist) = true) ∧
      ((main_cycle (diagnose_and_decide agg hist) v maxVol).dispatched = none ∨
        (main_cycle (diagnose_and_decide agg hist) v maxVol).dispatched
          = some "reroute") := by
  simp only [diagnose_and_decide]
  split_ifs
  all_goals
    first
      | exact tna_leaf _ _ _ _ _ _
      | exact rt_leaf _ _ _ _ _ _
      | exact low_conf_leaf _ _ _ _ _ (by norm_num) (by norm_num [round2]) _ _

/-- Witness for C10 at the network-failure snapshot: the engine
proposes "Alert human operators" there, and the theorem yields the
0.78 confidence bound and forced escalation. -/
theorem C10_reroute_only_autonomous_witness :
    (diagnose_and_decide sampleNetwork20 []).confidence_score ≤ 78 / 100 ∧
      should_escalate (diagnose_and_decide sampleNetwork20 []) = true := by
  have hud0 : lookupD sampleNetwork20.error_code_distribution "USER_DECLINED"
      = 0 := by decide
  have hbt0 : lookupD sampleNetwork20.error_code_distribution "BANK_TIMEOUT"
      = 0 := by decide
  have hnet3 : lookupD sampleNetwork20.error_code_distribution "NETWORK_ERROR"
      = 3 := by decide
  have hisd0 : lookupD sampleNetwork20.error_code_distribution "ISSUER_DOWN"
      = 0 := by decide
  have hpct0 : pct_of sampleNetwork20.failures_by_bank sampleNetwork20.failure_count
      = 0 := by
    simp [pct_of, sampleNetwork20, argmaxFirst]
  have hact : (diagnose_and_decide sampleNetwork20 []).proposed_action
      = "Alert human operators" := by
    simp only [diagnose_and_decide]
    rw [if_neg (by decide)]
    rw [if_neg ?u2]
    case u2 =>
      rintro ⟨-, h⟩
      rw [hud0] at h
      norm_num [sampleNetwork20] at h
    rw [if_neg ?u3]
    case u3 =>
      rintro ⟨-, h | h⟩
      · rw [hpct0] at h
        norm_num at h
      · rw [hisd0] at h
        norm_num [sampleNetwork20] at h
    rw [if_neg ?u4]
    case u4 =>
      rintro ⟨-, h⟩
      rw [hbt0] at h
      norm_num [sampleNetwork20, max_le_iff] at h
    rw [if_pos (Or.inl ?u5)]
    case u5 =>
      rw [hnet3]
      norm_num [sampleNetwork20, max_le_iff]
    rfl
  exact (C10_reroute_only_autonomous sampleNetwork20 [] 0 0).1
    ⟨by rw [hact]; decide, by rw [hact]; decide⟩

end PayOps
